import Mathlib

/-!
Verification of the round-based message competition server
(erik-rubik/Backend-Go-Server-gpt-main) against its specification.

The repository ships several variants of the hub files side by side
(a modular tree under internal/hub plus older copies of rounds.go and
nats.go).  Each definition below is a shallow embedding of one concrete
Go function; the header comment of every definition names the file and
function it translates.  Wall-clock instants are Nat seconds, random
indices are explicit parameters (rand.Intn(n) is an arbitrary value < n),
and the NATS connection is a Boolean (nil test on NatsConn and Js).
-/

set_option maxRecDepth 10000

/-- Whitespace test of Go unicode.IsSpace, restricted to the Latin-1 range
(the characters outside it never occur in the properties proved here). -/
def goIsSpace (c : Char) : Bool :=
  c = ' ' || c = '\t' || c = '\n' || c = Char.ofNat 0x0B || c = Char.ofNat 0x0C ||
  c = '\r' || c = Char.ofNat 0x85 || c = Char.ofNat 0xA0

/-- Go strings.TrimSpace: drop leading and trailing whitespace. -/
def goTrimSpace (s : String) : String :=
  String.mk (((s.data.dropWhile goIsSpace).reverse.dropWhile goIsSpace).reverse)

/-- Go len on a string: its UTF-8 byte count. -/
def goLen (s : String) : Nat :=
  s.data.foldl (fun n c => n + c.utf8Size) 0

/-- internal/hub/messaging.go, validateMessageContent: trim whitespace, then
require a byte length between 1 and 500. -/
def validateMessageContent (content : String) : Bool :=
  let contentT := goTrimSpace content
  1 ≤ goLen contentT && goLen contentT ≤ 500

/-- internal/hub/hub.go, RoundMessage: one accepted submission
{Username, Message, Timestamp}. -/
structure RoundMessage where
  username : String
  message : String
  timestamp : Nat
deriving DecidableEq

/-- A JSON value as it appears in the payload maps the hub builds
(map[string]interface{} literals use strings, integers, nil, and one
nested RoundMessage). -/
inductive JsonVal where
  | s (v : String)
  | i (v : Int)
  | null
  | msg (m : RoundMessage)
deriving DecidableEq

/-- A JSON object: ordered field list, as built by the Go map literals. -/
abbrev JsonObj := List (String × JsonVal)

/-- NATS JetStream subjects used by the hub (fmt.Sprintf patterns
"messages.%d", "rounds.started.%d", "rounds.ended.%d", "winners.%d"). -/
inductive Subject where
  | messages (roundID : Int)
  | roundsStarted (roundID : Int)
  | roundsEnded (roundID : Int)
  | winners (roundID : Int)
deriving DecidableEq

/-- One js.Publish call: subject plus JSON payload. -/
structure Publication where
  subject : Subject
  payload : JsonObj
deriving DecidableEq

/-- internal/hub/hub.go, Hub: the round-related state the claims are about.
RoundMessages (map[int64][]RoundMessage) is an association list;
MessageLimiter (map[string]bool) is the list of usernames marked true. -/
structure HubState where
  RoundActive : Bool
  CurrentRoundID : Int
  MessageLimiter : List String
  RoundMessages : List (Int × List RoundMessage)
deriving DecidableEq

/-- Go map read m[id] (ok form): first binding of id, if any. -/
def mapLookup : List (Int × List RoundMessage) → Int → Option (List RoundMessage)
  | [], _ => none
  | (k, w) :: rest, id => if k = id then some w else mapLookup rest id

/-- Go map write m[id] = v: replace the binding of id or add one. -/
def mapInsert : List (Int × List RoundMessage) → Int → List RoundMessage → List (Int × List RoundMessage)
  | [], id, v => [(id, v)]
  | (k, w) :: rest, id, v =>
    if k = id then (id, v) :: rest else (k, w) :: mapInsert rest id v

/-- internal/hub/hub.go, addRoundMessage: append {username, messageText, now}
to the buffer of the round (creating it if absent). -/
def addRoundMessage (s : HubState) (roundID : Int) (username messageText : String)
    (now : Nat) : HubState :=
  let existing := (mapLookup s.RoundMessages roundID).getD []
  let roundMsg : RoundMessage := ⟨username, messageText, now⟩
  { s with RoundMessages := mapInsert s.RoundMessages roundID (existing ++ [roundMsg]) }

/-- internal/hub/hub.go, cleanupOldMessages: with keepRounds = 3, if the map
holds more than keepRounds round ids, delete every id below
currentRoundID - (keepRounds - 1); otherwise leave the map untouched. -/
def cleanupOldMessages (s : HubState) (currentRoundID : Int) : HubState :=
  let keepRounds : Int := 3
  let roundIDs := s.RoundMessages.map Prod.fst
  if roundIDs.length > 3 then
    { s with RoundMessages :=
        s.RoundMessages.filter (fun p => !decide (p.1 < currentRoundID - (keepRounds - 1))) }
  else s

/-- Wire envelope as decoded into map[string]interface{}: the handler reads
the "type" and "data" keys with string assertions (none = key absent or not
a string); "version" is carried on the wire but this handler never reads it. -/
structure Envelope where
  version : Option String
  msgType : Option String
  data : Option String
deriving DecidableEq

/-- internal/hub/messaging.go, SendErrorMessage: the JSON object marshalled
and sent to the client (version, type "error", human-text data). -/
def SendErrorMessage (errorMsg : String) : JsonObj :=
  [("version", JsonVal.s "1.0"), ("type", JsonVal.s "error"), ("data", JsonVal.s errorMsg)]

/-- internal/hub/messaging.go, SendAckMessage: the acknowledgement object. -/
def SendAckMessage : JsonObj :=
  [("version", JsonVal.s "1.0"), ("type", JsonVal.s "ack"),
   ("data", JsonVal.s "Message received successfully")]

/-- Result of handling one client envelope: the hub state afterwards, the
direct reply sent to the sender (if any), and the JetStream publications. -/
structure HandleResult where
  state : HubState
  reply : Option JsonObj
  published : List Publication
deriving DecidableEq

/-- internal/hub/nats.go, publishMessageToNATS: publish
{username, content, timestamp, round_id} on messages.{CurrentRoundID}
when the NATS connection and JetStream context are non-nil. -/
def publishMessageToNATS (natsUp : Bool) (now : Nat) (currentRoundID : Int)
    (username content : String) : List Publication :=
  if natsUp then
    [⟨Subject.messages currentRoundID,
      [("username", JsonVal.s username), ("content", JsonVal.s content),
       ("timestamp", JsonVal.i now), ("round_id", JsonVal.i currentRoundID)]⟩]
  else []

/-- internal/hub/messaging.go, ProcessMessage: store the message in the
buffer of the current round, acknowledge the sender, publish to NATS. -/
def ProcessMessage (natsUp : Bool) (now : Nat) (s : HubState)
    (clientUsername content : String) : HandleResult :=
  let currentRoundID := s.CurrentRoundID
  let s2 := addRoundMessage s currentRoundID clientUsername content now
  { state := s2, reply := some SendAckMessage,
    published := publishMessageToNATS natsUp now currentRoundID clientUsername content }

/-- internal/hub/messaging.go, HandleClientMessage: type dispatch, round-active
check, submission-limiter check-and-mark, data and content validation, then
ProcessMessage.  The limiter is marked before the data checks run. -/
def HandleClientMessage (natsUp : Bool) (now : Nat) (s : HubState)
    (clientUsername : String) (message : Envelope) : HandleResult :=
  match message.msgType with
  | none => ⟨s, some (SendErrorMessage "Invalid message format"), []⟩
  | some messageType =>
    if messageType = "client_message" then
      if !s.RoundActive then
        ⟨s, some (SendErrorMessage "No active round"), []⟩
      else if clientUsername ∈ s.MessageLimiter then
        ⟨s, some (SendErrorMessage "You have already submitted a message for this round"), []⟩
      else
        let s1 := { s with MessageLimiter := clientUsername :: s.MessageLimiter }
        match message.data with
        | none => ⟨s1, some (SendErrorMessage "Invalid message data"), []⟩
        | some data =>
          if data = "" then ⟨s1, some (SendErrorMessage "Invalid message data"), []⟩
          else if !validateMessageContent data then
            ⟨s1, some (SendErrorMessage "Invalid message content: must be 1-500 characters"), []⟩
          else ProcessMessage natsUp now s1 clientUsername data
    else ⟨s, some (SendErrorMessage "Unknown message type"), []⟩

/-- internal/hub/nats.go, publishWinnerToNATS (in-memory-selection variant):
publish {round_id, username, content, timestamp = now} on winners.{roundID}
when the NATS connection and JetStream context are non-nil. -/
def publishWinnerToNATS (natsUp : Bool) (now : Nat) (roundID : Int)
    (username content : String) : List Publication :=
  if natsUp then
    [⟨Subject.winners roundID,
      [("round_id", JsonVal.i roundID), ("username", JsonVal.s username),
       ("content", JsonVal.s content), ("timestamp", JsonVal.i now)]⟩]
  else []

/-- Result of SelectWinner: state after cleanup, broadcast envelopes, and
JetStream publications. -/
structure SelectWinnerResult where
  state : HubState
  broadcasts : List JsonObj
  published : List Publication
deriving DecidableEq

/-- internal/hub/nats.go, SelectWinner empty branch: the object broadcast when
the round has no buffered messages. -/
def noWinnerAnnouncement (roundID : Int) : JsonObj :=
  [("version", JsonVal.s "1.0"), ("type", JsonVal.s "winner_announcement"),
   ("round_id", JsonVal.i roundID), ("winner", JsonVal.null),
   ("total_messages", JsonVal.i 0),
   ("message", JsonVal.s "No messages submitted this round")]

/-- internal/hub/nats.go, SelectWinner (the in-memory-buffer variant of
src/internal/hub/nats.go): look up the buffer of the round; if absent or empty,
broadcast the no-winner announcement and stop; otherwise take the message at
index rand.Intn(len(messages)) (randIndex stands for that random draw, always
below the length), broadcast the winner announcement, publish the winner
record, and garbage-collect old rounds. -/
def SelectWinner (natsUp : Bool) (now : Nat) (randIndex : Nat) (s : HubState)
    (roundID : Int) : SelectWinnerResult :=
  match mapLookup s.RoundMessages roundID with
  | none => ⟨s, [noWinnerAnnouncement roundID], []⟩
  | some messages =>
    if messages.length = 0 then
      ⟨s, [noWinnerAnnouncement roundID], []⟩
    else
      let winner := messages.getD randIndex ⟨"", "", 0⟩
      let totalMessages := messages.length
      let announcement : JsonObj :=
        [("version", JsonVal.s "1.0"), ("type", JsonVal.s "winner_announcement"),
         ("round_id", JsonVal.i roundID), ("winner", JsonVal.msg winner),
         ("total_messages", JsonVal.i totalMessages)]
      let pubs := publishWinnerToNATS natsUp now roundID winner.username winner.message
      ⟨cleanupOldMessages s roundID, [announcement], pubs⟩

/-- The two actions a round-scheduler tick can perform. -/
inductive SchedulerAction where
  | startRound
  | endRound
deriving DecidableEq

/-- src/internal/hub/rounds.go, StartRoundTimer: ticker interval in seconds
(time.NewTicker(30 * time.Second)). -/
def hubRoundTickerSeconds : Nat := 30

/-- src/unnamed/part_005 (internal/hub/rounds.go variant), roundDuration:
15 * time.Second, in seconds. -/
def roundDuration : Nat := 15

/-- src/internal/hub/rounds.go, StartRoundTimer loop body: each tick fires
hubRoundTickerSeconds after the previous one and runs EndRound when a round
is active (RoundActive becomes false) or StartRound when none is
(RoundActive becomes true).  Returns the timed actions of the given number
of ticks. -/
def StartRoundTimerLoop (active : Bool) (tickTime : Nat) : Nat → List (Nat × SchedulerAction)
  | 0 => []
  | n + 1 =>
    if active then
      (tickTime, SchedulerAction.endRound) ::
        StartRoundTimerLoop false (tickTime + hubRoundTickerSeconds) n
    else
      (tickTime, SchedulerAction.startRound) ::
        StartRoundTimerLoop true (tickTime + hubRoundTickerSeconds) n

/-- src/internal/hub/rounds.go, StartRoundTimer: StartRound immediately
(time 0), then the 30-second ticker loop; a round is active after the
initial StartRound. -/
def StartRoundTimer (ticks : Nat) : List (Nat × SchedulerAction) :=
  (0, SchedulerAction.startRound) :: StartRoundTimerLoop true hubRoundTickerSeconds ticks

/-- src/unnamed/part_005, StartRoundTimer loop body: each tick fires
roundDuration after the previous one and runs EndRound then StartRound. -/
def StartRoundTimerLoop005 (tickTime : Nat) : Nat → List (Nat × SchedulerAction)
  | 0 => []
  | n + 1 =>
    (tickTime, SchedulerAction.endRound) :: (tickTime, SchedulerAction.startRound) ::
      StartRoundTimerLoop005 (tickTime + roundDuration) n

/-- src/unnamed/part_005, StartRoundTimer: StartRound immediately (time 0),
then the roundDuration ticker loop. -/
def StartRoundTimer005 (ticks : Nat) : List (Nat × SchedulerAction) :=
  (0, SchedulerAction.startRound) :: StartRoundTimerLoop005 roundDuration ticks

/-- The instants at which a timed scheduler trace runs StartRound. -/
def roundStartTimes (trace : List (Nat × SchedulerAction)) : List Nat :=
  trace.filterMap fun p =>
    if p.2 = SchedulerAction.startRound then some p.1 else none

/-- Responses of the /api/rounds/ HTTP handler: http.Error with a status, or
the JSON success object {round_id, messages, winner, count, timestamp}. -/
inductive HttpResponse where
  | httpError (status : Nat) (body : String)
  | jsonOk (roundID : String) (messages : List JsonObj) (winner : Option JsonObj) (count : Nat)
deriving DecidableEq

/-- internal/api/api.go, the /api/rounds/ handler.  jsAvailable is the js !=
nil test; path is r.URL.Path; consumerOk covers the AddConsumer,
PullSubscribe and Fetch calls on MESSAGES succeeding (a Fetch timeout counts
as success with whatever was fetched); streamMsgs is the stream content for
messages.{id} in stream order, each element some object if its payload
unmarshals and none otherwise (unmarshal failures are skipped);
winnerConsumerOk and winnerStream likewise for WINNERS, where any failure
only leaves the winner null.  Fetch caps at 100 messages and 1 winner. -/
def apiRoundsHandler (jsAvailable : Bool) (path : String) (consumerOk : Bool)
    (streamMsgs : List (Option JsonObj)) (winnerConsumerOk : Bool)
    (winnerStream : List (Option JsonObj)) : HttpResponse :=
  if !jsAvailable then
    HttpResponse.httpError 503 "JetStream not available"
  else if goLen path ≤ goLen "/api/rounds/" then
    HttpResponse.httpError 400 "Round ID required"
  else
    let roundID := String.mk (path.data.drop "/api/rounds/".data.length)
    if !consumerOk then
      HttpResponse.httpError 500 "Error retrieving messages"
    else
      let messages := (streamMsgs.take 100).filterMap id
      let winner : Option JsonObj :=
        if winnerConsumerOk then
          match (winnerStream.take 1).filterMap id with
          | [] => none
          | w :: _ => some w
        else none
      HttpResponse.jsonOk roundID messages winner messages.length

/-- Sequential processing of a list of (sender, envelope) events by
HandleClientMessage, collecting all JetStream publications.  This is the
serialized handling by the hub of submissions within one round (the handler
never changes RoundActive or CurrentRoundID). -/
def runClientMessages (natsUp : Bool) (now : Nat) (s : HubState) :
    List (String × Envelope) → HubState × List Publication
  | [] => (s, [])
  | (u, e) :: rest =>
    let r := HandleClientMessage natsUp now s u e
    let tail := runClientMessages natsUp now r.state rest
    (tail.1, r.published ++ tail.2)

/-- Number of submissions by username U recorded in the buffer of round R. -/
def subsFrom (s : HubState) (R : Int) (U : String) : Nat :=
  ((mapLookup s.RoundMessages R).getD []).countP fun m => decide (m.username = U)

/-- Number of publications on subject messages.{R} whose payload carries
username U. -/
def msgPubsFrom (pubs : List Publication) (R : Int) (U : String) : Nat :=
  pubs.countP fun p =>
    decide (p.subject = Subject.messages R) &&
      decide (p.payload.lookup "username" = some (JsonVal.s U))

/-- Case analysis of HandleClientMessage: every branch either leaves the state
unchanged, only marks the sender in the limiter, or (sender unmarked) marks
the sender and records plus publishes one message. -/
theorem handle_state_cases (natsUp : Bool) (now : Nat) (s : HubState) (u : String)
    (e : Envelope) :
    (HandleClientMessage natsUp now s u e).state = s ∧
      (HandleClientMessage natsUp now s u e).published = [] ∨
    u ∉ s.MessageLimiter ∧
      (HandleClientMessage natsUp now s u e).state =
        { s with MessageLimiter := u :: s.MessageLimiter } ∧
      (HandleClientMessage natsUp now s u e).published = [] ∨
    u ∉ s.MessageLimiter ∧ ∃ d,
      (HandleClientMessage natsUp now s u e).state =
        addRoundMessage { s with MessageLimiter := u :: s.MessageLimiter }
          s.CurrentRoundID u d now ∧
      (HandleClientMessage natsUp now s u e).published =
        publishMessageToNATS natsUp now s.CurrentRoundID u d := by
  unfold HandleClientMessage
  cases e.msgType with
  | none => exact Or.inl ⟨rfl, rfl⟩
  | some t =>
    simp only
    split
    · split
      · exact Or.inl ⟨rfl, rfl⟩
      · split
        · exact Or.inl ⟨rfl, rfl⟩
        · rename_i hmem
          split
          · exact Or.inr (Or.inl ⟨hmem, rfl, rfl⟩)
          · split
            · exact Or.inr (Or.inl ⟨hmem, rfl, rfl⟩)
            · split
              · exact Or.inr (Or.inl ⟨hmem, rfl, rfl⟩)
              · rename_i d _ _ _
                exact Or.inr (Or.inr ⟨hmem, d, rfl, rfl⟩)
    · exact Or.inl ⟨rfl, rfl⟩

/-- A sender already in the limiter can never change the state or publish. -/
theorem handle_blocked (natsUp : Bool) (now : Nat) (s : HubState) (u : String)
    (e : Envelope) (hmem : u ∈ s.MessageLimiter) :
    (HandleClientMessage natsUp now s u e).state = s ∧
      (HandleClientMessage natsUp now s u e).published = [] := by
  rcases handle_state_cases natsUp now s u e with h | h | h
  · exact h
  · exact absurd hmem h.1
  · exact absurd hmem h.1

/-- A client_message from a sender already in the limiter, during an active
round, is answered with exactly the already-sent error and nothing else. -/
theorem handle_blocked_reply (natsUp : Bool) (now : Nat) (s : HubState) (u : String)
    (e : Envelope) (hactive : s.RoundActive = true)
    (htype : e.msgType = some "client_message") (hmem : u ∈ s.MessageLimiter) :
    HandleClientMessage natsUp now s u e =
      ⟨s, some (SendErrorMessage "You have already submitted a message for this round"), []⟩ := by
  unfold HandleClientMessage
  rw [htype]
  simp [hactive, hmem]

/-- Reading an association list after a write (Go map semantics). -/
theorem mapLookup_mapInsert (m : List (Int × List RoundMessage)) (id id' : Int)
    (v : List RoundMessage) :
    mapLookup (mapInsert m id v) id' =
      if id = id' then some v else mapLookup m id' := by
  induction m with
  | nil => by_cases h : id = id' <;> simp [mapInsert, mapLookup, h]
  | cons p rest ih =>
    obtain ⟨k, w⟩ := p
    by_cases hk : k = id
    · subst hk
      by_cases h' : k = id' <;> simp [mapInsert, mapLookup, h', ih]
    · by_cases h' : k = id'
      · subst h'
        have : ¬ id = k := fun h => hk h.symm
        simp [mapInsert, mapLookup, hk, this]
      · simp [mapInsert, mapLookup, hk, h', ih]

/-- Effect of addRoundMessage on the per-round per-user submission count. -/
theorem subsFrom_addRoundMessage (s : HubState) (rid : Int) (u d : String)
    (now : Nat) (R : Int) (U : String) :
    subsFrom (addRoundMessage s rid u d now) R U =
      subsFrom s R U + (if R = rid ∧ U = u then 1 else 0) := by
  unfold subsFrom addRoundMessage
  simp only [mapLookup_mapInsert]
  by_cases hR : rid = R
  · subst hR
    simp only [if_pos rfl]
    by_cases hU : U = u
    · subst hU
      simp [List.countP_append, List.countP_cons]
    · have : ¬ (u = U) := fun h => hU h.symm
      simp [List.countP_append, List.countP_cons, this, hU]
  · have : ¬ (R = rid) := fun h => hR h.symm
    simp [hR, this]

/-- Submission count of one publishMessageToNATS call. -/
theorem msgPubsFrom_publishMessageToNATS (natsUp : Bool) (now : Nat) (rid : Int)
    (u d : String) (R : Int) (U : String) :
    msgPubsFrom (publishMessageToNATS natsUp now rid u d) R U =
      if natsUp = true ∧ R = rid ∧ U = u then 1 else 0 := by
  unfold msgPubsFrom publishMessageToNATS
  by_cases hn : natsUp
  · simp only [hn, if_true]
    by_cases hR : R = rid
    · subst hR
      by_cases hU : U = u
      · subst hU
        simp [List.countP_cons, List.lookup]
      · have : ¬ (u = U) := fun h => hU h.symm
        simp [List.countP_cons, List.lookup, hU, this]
    · have : ¬ (rid = R) := fun h => hR h.symm
      simp [List.countP_cons, hR, this, Subject.messages.injEq]
  · simp [hn]

/-- Splitting a publication count over append. -/
theorem msgPubsFrom_append (xs ys : List Publication) (R : Int) (U : String) :
    msgPubsFrom (xs ++ ys) R U = msgPubsFrom xs R U + msgPubsFrom ys R U := by
  unfold msgPubsFrom
  exact List.countP_append _ _ _

/-- The handler never changes the submission limiter except by adding the
sender, and keeps RoundMessages unless the sender was unmarked. -/
theorem handle_limiter_eq (natsUp : Bool) (now : Nat) (s : HubState) (u : String)
    (e : Envelope) :
    (HandleClientMessage natsUp now s u e).state.MessageLimiter = s.MessageLimiter ∨
    (HandleClientMessage natsUp now s u e).state.MessageLimiter = u :: s.MessageLimiter := by
  rcases handle_state_cases natsUp now s u e with h | h | h
  · exact Or.inl (by rw [h.1])
  · exact Or.inr (by rw [h.2.1])
  · obtain ⟨_, d, hs, _⟩ := h
    exact Or.inr (by rw [hs]; rfl)

/-- Sequential processing preserves the at-most-one-submission bound: if the
user is unmarked only with an empty count, then after any events the user has
at most one buffered submission for round R and at most one messages.{R}
publication. -/
theorem runClientMessages_at_most_once (natsUp : Bool) (now : Nat) (R : Int) (U : String) :
    ∀ (evs : List (String × Envelope)) (s : HubState),
      (U ∉ s.MessageLimiter → subsFrom s R U = 0) →
      subsFrom s R U ≤ 1 →
      subsFrom (runClientMessages natsUp now s evs).1 R U ≤ 1 ∧
        (U ∈ s.MessageLimiter →
          msgPubsFrom (runClientMessages natsUp now s evs).2 R U = 0) ∧
        msgPubsFrom (runClientMessages natsUp now s evs).2 R U ≤ 1 := by
  intro evs
  induction evs with
  | nil =>
    intro s h0 h1
    exact ⟨h1, fun _ => rfl, Nat.zero_le 1⟩
  | cons ev rest ih =>
    obtain ⟨u, e⟩ := ev
    intro s h0 h1
    simp only [runClientMessages, msgPubsFrom_append]
    have hz : msgPubsFrom ([] : List Publication) R U = 0 := rfl
    by_cases hu : u ∈ s.MessageLimiter
    · obtain ⟨hs, hp⟩ := handle_blocked natsUp now s u e hu
      rw [hs, hp, hz]
      obtain ⟨a, b, c⟩ := ih s h0 h1
      exact ⟨a, fun hU => by rw [b hU], by omega⟩
    · rcases handle_state_cases natsUp now s u e with hbr | hbr | hbr
      · obtain ⟨hs, hp⟩ := hbr
        rw [hs, hp, hz]
        obtain ⟨a, b, c⟩ := ih s h0 h1
        exact ⟨a, fun hU => by rw [b hU], by omega⟩
      · obtain ⟨-, hs, hp⟩ := hbr
        rw [hs, hp, hz]
        have h0' : U ∉ ({ s with MessageLimiter := u :: s.MessageLimiter } : HubState).MessageLimiter →
            subsFrom { s with MessageLimiter := u :: s.MessageLimiter } R U = 0 := by
          intro hn
          exact h0 fun hU => hn (List.mem_cons_of_mem _ hU)
        obtain ⟨a, b, c⟩ := ih _ h0' h1
        refine ⟨a, fun hU => ?_, by omega⟩
        rw [b (List.mem_cons_of_mem _ hU)]
      · obtain ⟨-, d, hs, hp⟩ := hbr
        rw [hs, hp, msgPubsFrom_publishMessageToNATS]
        by_cases hUu : U = u
        · subst hUu
          have hzs : subsFrom s R U = 0 := h0 hu
          have hsub : subsFrom (addRoundMessage
              { s with MessageLimiter := U :: s.MessageLimiter } s.CurrentRoundID U d now) R U ≤ 1 := by
            rw [subsFrom_addRoundMessage]
            have he : subsFrom { s with MessageLimiter := U :: s.MessageLimiter } R U = subsFrom s R U := rfl
            rw [he, hzs]
            split <;> omega
          have hmem' : U ∈ (addRoundMessage
              { s with MessageLimiter := U :: s.MessageLimiter } s.CurrentRoundID U d now).MessageLimiter
              := List.mem_cons_self _ _
          obtain ⟨a, b, c⟩ := ih _ (fun hn => absurd hmem' hn) hsub
          have htail := b hmem'
          refine ⟨a, fun hU => absurd hU hu, ?_⟩
          rw [htail]
          split <;> omega
        · have he : subsFrom { s with MessageLimiter := u :: s.MessageLimiter } R U = subsFrom s R U := rfl
          have hsub : subsFrom (addRoundMessage
              { s with MessageLimiter := u :: s.MessageLimiter } s.CurrentRoundID u d now) R U = subsFrom s R U := by
            rw [subsFrom_addRoundMessage, he]
            simp [hUu]
          have hmemIff : U ∈ (addRoundMessage
              { s with MessageLimiter := u :: s.MessageLimiter } s.CurrentRoundID u d now).MessageLimiter ↔
              U ∈ s.MessageLimiter := by
            show U ∈ u :: s.MessageLimiter ↔ U ∈ s.MessageLimiter
            simp [List.mem_cons, hUu]
          have h0' : U ∉ (addRoundMessage
              { s with MessageLimiter := u :: s.MessageLimiter } s.CurrentRoundID u d now).MessageLimiter →
              subsFrom (addRoundMessage
                { s with MessageLimiter := u :: s.MessageLimiter } s.CurrentRoundID u d now) R U = 0 := by
            intro hn
            rw [hsub]
            exact h0 fun hU => hn (hmemIff.mpr hU)
          obtain ⟨a, b, c⟩ := ih _ h0' (by rw [hsub]; exact h1)
          have hhead : (if natsUp = true ∧ R = s.CurrentRoundID ∧ U = u then 1 else 0) = 0 := by
            simp [hUu]
          refine ⟨a, fun hU => ?_, ?_⟩
          · rw [hhead, b (hmemIff.mpr hU)]
          · rw [hhead]
            omega

/-- Once a username is in the limiter with no buffered submission for round R,
no later event can record or publish a submission from it. -/
theorem runClientMessages_never_records (natsUp : Bool) (now : Nat) (R : Int) (U : String) :
    ∀ (evs : List (String × Envelope)) (s : HubState),
      U ∈ s.MessageLimiter →
      subsFrom s R U = 0 →
      U ∈ (runClientMessages natsUp now s evs).1.MessageLimiter ∧
        subsFrom (runClientMessages natsUp now s evs).1 R U = 0 ∧
        msgPubsFrom (runClientMessages natsUp now s evs).2 R U = 0 := by
  intro evs
  induction evs with
  | nil =>
    intro s hmem hz
    exact ⟨hmem, hz, rfl⟩
  | cons ev rest ih =>
    obtain ⟨u, e⟩ := ev
    intro s hmem hz
    simp only [runClientMessages, msgPubsFrom_append]
    have hznil : msgPubsFrom ([] : List Publication) R U = 0 := rfl
    by_cases hu : u ∈ s.MessageLimiter
    · obtain ⟨hs, hp⟩ := handle_blocked natsUp now s u e hu
      rw [hs, hp, hznil]
      obtain ⟨a, b, c⟩ := ih s hmem hz
      exact ⟨a, b, by omega⟩
    · have hUu : U ≠ u := fun h => hu (h ▸ hmem)
      rcases handle_state_cases natsUp now s u e with hbr | hbr | hbr
      · obtain ⟨hs, hp⟩ := hbr
        rw [hs, hp, hznil]
        obtain ⟨a, b, c⟩ := ih s hmem hz
        exact ⟨a, b, by omega⟩
      · obtain ⟨-, hs, hp⟩ := hbr
        rw [hs, hp, hznil]
        obtain ⟨a, b, c⟩ := ih { s with MessageLimiter := u :: s.MessageLimiter }
          (List.mem_cons_of_mem _ hmem) hz
        exact ⟨a, b, by omega⟩
      · obtain ⟨-, d, hs, hp⟩ := hbr
        rw [hs, hp, msgPubsFrom_publishMessageToNATS]
        have hsub : subsFrom (addRoundMessage
            { s with MessageLimiter := u :: s.MessageLimiter } s.CurrentRoundID u d now) R U = 0 := by
          rw [subsFrom_addRoundMessage]
          have he : subsFrom { s with MessageLimiter := u :: s.MessageLimiter } R U = subsFrom s R U := rfl
          rw [he, hz]
          simp [hUu]
        have hmem' : U ∈ (addRoundMessage
            { s with MessageLimiter := u :: s.MessageLimiter } s.CurrentRoundID u d now).MessageLimiter :=
          List.mem_cons_of_mem _ hmem
        obtain ⟨a, b, c⟩ := ih _ hmem' hsub
        have hhead : (if natsUp = true ∧ R = s.CurrentRoundID ∧ U = u then 1 else 0) = 0 := by
          simp [hUu]
        exact ⟨a, b, by omega⟩

theorem roundStartTimes_cons_end (t : Nat) (l : List (Nat × SchedulerAction)) :
    roundStartTimes ((t, SchedulerAction.endRound) :: l) = roundStartTimes l := by
  simp [roundStartTimes]

theorem roundStartTimes_cons_start (t : Nat) (l : List (Nat × SchedulerAction)) :
    roundStartTimes ((t, SchedulerAction.startRound) :: l) = t :: roundStartTimes l := by
  simp [roundStartTimes]

/-- Start instants of the part_005 ticker loop: one per tick. -/
theorem roundStartTimes_loop005 : ∀ (n t : Nat),
    roundStartTimes (StartRoundTimerLoop005 t n) =
      (List.range n).map (fun k => t + roundDuration * k) := by
  intro n
  induction n with
  | zero => intro t; rfl
  | succ m ih =>
    intro t
    show roundStartTimes ((t, SchedulerAction.endRound) :: (t, SchedulerAction.startRound) ::
      StartRoundTimerLoop005 (t + roundDuration) m) = _
    rw [roundStartTimes_cons_end, roundStartTimes_cons_start, ih]
    rw [List.range_succ_eq_map, List.map_cons, List.map_map]
    refine congrArg₂ _ (by omega) ?_
    refine List.map_congr_left fun k _ => ?_
    show t + roundDuration + roundDuration * k = t + roundDuration * (k + 1)
    ring

/-- Start instants of the full part_005 scheduler: 0, 15, 30, ... -/
theorem roundStartTimes_timer005 (n : Nat) :
    roundStartTimes (StartRoundTimer005 n) =
      (List.range (n + 1)).map (fun k => roundDuration * k) := by
  show roundStartTimes ((0, SchedulerAction.startRound) :: StartRoundTimerLoop005 roundDuration n) = _
  rw [roundStartTimes_cons_start, roundStartTimes_loop005]
  rw [List.range_succ_eq_map, List.map_cons, List.map_map]
  refine congrArg₂ _ (by omega) ?_
  refine List.map_congr_left fun k _ => ?_
  show roundDuration + roundDuration * k = roundDuration * (k + 1)
  ring

/-- Start instants of the 30-second alternating loop started in the active
state: one start every second tick. -/
theorem roundStartTimes_loopSrc : ∀ (n t : Nat),
    roundStartTimes (StartRoundTimerLoop true t n) =
      (List.range (n / 2)).map (fun k => t + hubRoundTickerSeconds + 2 * hubRoundTickerSeconds * k) := by
  intro n
  induction n using Nat.strong_induction_on with
  | _ n ih =>
    match n with
    | 0 => intro t; rfl
    | 1 =>
      intro t
      show roundStartTimes ((t, SchedulerAction.endRound) ::
        StartRoundTimerLoop false (t + hubRoundTickerSeconds) 0) = _
      rw [roundStartTimes_cons_end]
      rfl
    | m + 2 =>
      intro t
      show roundStartTimes ((t, SchedulerAction.endRound) ::
        (t + hubRoundTickerSeconds, SchedulerAction.startRound) ::
        StartRoundTimerLoop true (t + hubRoundTickerSeconds + hubRoundTickerSeconds) m) = _
      rw [roundStartTimes_cons_end, roundStartTimes_cons_start, ih m (by omega)]
      have : (m + 2) / 2 = m / 2 + 1 := by omega
      rw [this, List.range_succ_eq_map, List.map_cons, List.map_map]
      refine congrArg₂ _ (by omega) ?_
      refine List.map_congr_left fun k _ => ?_
      show t + hubRoundTickerSeconds + hubRoundTickerSeconds + hubRoundTickerSeconds +
      2 * hubRoundTickerSeconds * k = t + hubRoundTickerSeconds + 2 * hubRoundTickerSeconds * (k + 1)
      ring

/-- Start instants of the full src scheduler: 0, 60, 120, ... -/
theorem roundStartTimes_timerSrc (n : Nat) :
    roundStartTimes (StartRoundTimer n) =
      (List.range (n / 2 + 1)).map (fun k => 2 * hubRoundTickerSeconds * k) := by
  show roundStartTimes ((0, SchedulerAction.startRound) ::
    StartRoundTimerLoop true hubRoundTickerSeconds n) = _
  rw [roundStartTimes_cons_start, roundStartTimes_loopSrc]
  rw [List.range_succ_eq_map, List.map_cons, List.map_map]
  refine congrArg₂ _ (by omega) ?_
  refine List.map_congr_left fun k _ => ?_
  show hubRoundTickerSeconds + hubRoundTickerSeconds + 2 * hubRoundTickerSeconds * k =
    2 * hubRoundTickerSeconds * (k + 1)
  ring

/-- With more than three buffered rounds, cleanup removes every id older than
currentRoundID - 2. -/
theorem cleanupOldMessages_removes (s : HubState) (R : Int)
    (hlen : s.RoundMessages.length > 3) :
    ∀ id ∈ (cleanupOldMessages s R).RoundMessages.map Prod.fst, ¬ id < R - 2 := by
  intro id hid
  simp only [cleanupOldMessages, List.length_map, if_pos hlen] at hid
  simp only [List.mem_map, List.mem_filter] at hid
  obtain ⟨p, ⟨-, hkeep⟩, hfst⟩ := hid
  subst hfst
  intro hlt
  simp only [Bool.not_eq_true', decide_eq_false_iff_not] at hkeep
  exact hkeep (by omega)

/-- With at most three buffered rounds, cleanup deletes nothing. -/
theorem cleanupOldMessages_skips (s : HubState) (R : Int)
    (hlen : ¬ s.RoundMessages.length > 3) :
    cleanupOldMessages s R = s := by
  simp only [cleanupOldMessages, List.length_map, if_neg hlen]

/-- Action shape of the part_005 ticker loop: every tick is EndRound then
StartRound. -/
theorem loop005_actions : ∀ (n t : Nat),
    (StartRoundTimerLoop005 t n).map Prod.snd =
      (List.replicate n [SchedulerAction.endRound, SchedulerAction.startRound]).flatten := by
  intro n
  induction n with
  | zero => intro t; rfl
  | succ m ih =>
    intro t
    show (((t, SchedulerAction.endRound) :: (t, SchedulerAction.startRound) ::
      StartRoundTimerLoop005 (t + roundDuration) m).map Prod.snd) = _
    rw [List.map_cons, List.map_cons, ih]
    rfl

/-- C1 counterexample: in the scheduler of src/internal/hub/rounds.go the
ticker fires every 30 seconds, not 15, and the first tick after startup only
ends the round without immediately starting a new one: over two ticks the
actions are start, end, start, and the successive StartRound instants are 60
seconds apart, so the claim fails on this scheduler as stated. -/
theorem StartRoundTimer_src_not_fifteen_seconds :
    hubRoundTickerSeconds = 30 ∧ ¬ hubRoundTickerSeconds = 15 ∧
      (StartRoundTimer 2).map Prod.snd =
        [SchedulerAction.startRound, SchedulerAction.endRound, SchedulerAction.startRound] ∧
      roundStartTimes (StartRoundTimer 2) = [0, 60] := by
  refine ⟨rfl, by decide, by decide, by decide⟩

/-- C1 amended: the part_005 scheduler fires every roundDuration = 15 seconds,
starts the first round immediately at time 0, and on every tick ends the
current round and immediately starts the next, so its successive round starts
are exactly 15 seconds apart; the src/internal/hub/rounds.go scheduler
instead ticks every 30 seconds and alternates ending and starting, so its
successive round starts are 60 seconds apart. -/
theorem round_scheduler_start_times :
    roundDuration = 15 ∧ hubRoundTickerSeconds = 30 ∧
    (∀ n, (StartRoundTimer005 n).map Prod.snd =
      SchedulerAction.startRound ::
        (List.replicate n [SchedulerAction.endRound, SchedulerAction.startRound]).flatten) ∧
    (∀ n, roundStartTimes (StartRoundTimer005 n) =
      (List.range (n + 1)).map fun k => roundDuration * k) ∧
    (∀ n, roundStartTimes (StartRoundTimer n) =
      (List.range (n / 2 + 1)).map fun k => 2 * hubRoundTickerSeconds * k) := by
  refine ⟨rfl, rfl, ?_, roundStartTimes_timer005, roundStartTimes_timerSrc⟩
  intro n
  show ((0, SchedulerAction.startRound) ::
    StartRoundTimerLoop005 roundDuration n).map Prod.snd = _
  rw [List.map_cons, loop005_actions]

/-- C4 counterexample: an envelope with version 2.0 and a valid
client_message payload is fully processed during an active round (the reply
is the acknowledgement, the submission is recorded and published), so the
handler does not reject version mismatches with an INVALID_VERSION error. -/
theorem handle_version_mismatch_processed :
    (HandleClientMessage true 7 ⟨true, 42, [], []⟩ "alice"
        ⟨some "2.0", some "client_message", some "hello"⟩).reply = some SendAckMessage ∧
    (HandleClientMessage true 7 ⟨true, 42, [], []⟩ "alice"
        ⟨some "2.0", some "client_message", some "hello"⟩).state.RoundMessages =
      [(42, [⟨"alice", "hello", 7⟩])] ∧
    ¬ (HandleClientMessage true 7 ⟨true, 42, [], []⟩ "alice"
        ⟨some "2.0", some "client_message", some "hello"⟩).published = [] ∧
    SendAckMessage.lookup "type" = some (JsonVal.s "ack") := by
  decide

/-- C4 amended: HandleClientMessage never inspects the version field; an
envelope whose version differs from 1.0 is handled exactly as the same
envelope with any other version, with no INVALID_VERSION error path. -/
theorem handle_ignores_version_field (natsUp : Bool) (now : Nat) (s : HubState)
    (u : String) (e : Envelope) (v : Option String) :
    HandleClientMessage natsUp now s u { e with version := v } =
      HandleClientMessage natsUp now s u e := rfl

/-- C5 counterexample: the error envelope the handler actually sends for a
validation failure (here: submission outside an active round) carries no
error_code field at all. -/
theorem error_envelope_missing_error_code :
    (HandleClientMessage true 0 ⟨false, 0, [], []⟩ "alice"
        ⟨some "1.0", some "client_message", some "x"⟩).reply =
      some (SendErrorMessage "No active round") ∧
    (SendErrorMessage "No active round").lookup "error_code" = none := by
  decide

/-- C5 amended: every error envelope built by SendErrorMessage consists of
exactly the fields version, type and data, where type is the string error and
data is the human-readable text; no error_code field is ever present. -/
theorem error_envelope_fields (errorMsg : String) :
    (SendErrorMessage errorMsg).map Prod.fst = ["version", "type", "data"] ∧
    (SendErrorMessage errorMsg).lookup "error_code" = none ∧
    (SendErrorMessage errorMsg).lookup "type" = some (JsonVal.s "error") ∧
    (SendErrorMessage errorMsg).lookup "data" = some (JsonVal.s errorMsg) :=
  ⟨rfl, rfl, rfl, rfl⟩

/-- C6 counterexample: for a round with an empty message set, SelectWinner of
src/internal/hub/nats.go broadcasts a winner_announcement envelope whose
message field reads No messages submitted this round; it is not a
selected_text envelope, it has no data field, and its text is not the claimed
No messages submitted for this round. -/
theorem empty_round_broadcast_not_selected_text :
    (SelectWinner true 0 0 ⟨false, 42, [], []⟩ 42).broadcasts = [noWinnerAnnouncement 42] ∧
    (noWinnerAnnouncement 42).lookup "type" = some (JsonVal.s "winner_announcement") ∧
    ¬ (noWinnerAnnouncement 42).lookup "type" = some (JsonVal.s "selected_text") ∧
    (noWinnerAnnouncement 42).lookup "data" = none ∧
    ¬ (noWinnerAnnouncement 42).lookup "message" =
        some (JsonVal.s "No messages submitted for this round.") ∧
    (SelectWinner true 0 0 ⟨false, 42, [], []⟩ 42).published = [] := by
  decide

/-- C6 amended: when the message set of round R is absent or empty at winner
selection, the server broadcasts exactly one winner_announcement envelope
with winner null, total_messages 0, and message No messages submitted this
round, publishes no winners record, performs no cleanup and stops. -/
theorem select_winner_empty_round (natsUp : Bool) (now randIndex : Nat)
    (s : HubState) (R : Int)
    (hempty : mapLookup s.RoundMessages R = none ∨
      mapLookup s.RoundMessages R = some []) :
    SelectWinner natsUp now randIndex s R = ⟨s, [noWinnerAnnouncement R], []⟩ := by
  rcases hempty with h | h
  · unfold SelectWinner
    rw [h]
  · unfold SelectWinner
    rw [h]
    simp

/-- C6 witness: the amended statement evaluated on a concrete empty round. -/
theorem select_winner_empty_round_witness :
    SelectWinner true 0 0 ⟨false, 42, [], []⟩ 42 =
      ⟨⟨false, 42, [], []⟩, [noWinnerAnnouncement 42], []⟩ :=
  select_winner_empty_round true 0 0 ⟨false, 42, [], []⟩ 42 (Or.inl rfl)

/-- C2: when the buffer of round R is non-empty at selection time and the
stream is available, SelectWinner chooses exactly the buffer element at the
random index (any index below the buffer length), broadcasts exactly one
announcement carrying that element, and publishes exactly one winners record
for R with the username and content of that element. -/
theorem select_winner_publishes_chosen_submission
    (now randIndex : Nat) (s : HubState) (R : Int) (msgs : List RoundMessage)
    (hfind : mapLookup s.RoundMessages R = some msgs)
    (hidx : randIndex < msgs.length) :
    msgs.getD randIndex ⟨"", "", 0⟩ ∈ msgs ∧
    (SelectWinner true now randIndex s R).published =
      [⟨Subject.winners R,
        [("round_id", JsonVal.i R),
         ("username", JsonVal.s (msgs.getD randIndex ⟨"", "", 0⟩).username),
         ("content", JsonVal.s (msgs.getD randIndex ⟨"", "", 0⟩).message),
         ("timestamp", JsonVal.i now)]⟩] ∧
    (SelectWinner true now randIndex s R).broadcasts =
      [[("version", JsonVal.s "1.0"), ("type", JsonVal.s "winner_announcement"),
        ("round_id", JsonVal.i R), ("winner", JsonVal.msg (msgs.getD randIndex ⟨"", "", 0⟩)),
        ("total_messages", JsonVal.i msgs.length)]] := by
  have hne : ¬ msgs.length = 0 := by omega
  have hmem : msgs.getD randIndex ⟨"", "", 0⟩ ∈ msgs := by
    rw [List.getD_eq_getElem msgs _ hidx]
    exact List.getElem_mem hidx
  have hnil : ¬ msgs = [] := fun h => hne (by rw [h]; rfl)
  refine ⟨hmem, ?_, ?_⟩ <;>
  · unfold SelectWinner
    rw [hfind]
    simp [hnil, publishWinnerToNATS]

/-- C2 witness: a concrete two-element buffer with random index 1. -/
theorem select_winner_publishes_chosen_submission_witness :
    (⟨"bob", "hi", 3⟩ : RoundMessage) ∈
        ([⟨"alice", "yo", 2⟩, ⟨"bob", "hi", 3⟩] : List RoundMessage) ∧
    (SelectWinner true 9 1 ⟨false, 100, [],
        [(100, [⟨"alice", "yo", 2⟩, ⟨"bob", "hi", 3⟩])]⟩ 100).published =
      [⟨Subject.winners 100,
        [("round_id", JsonVal.i 100), ("username", JsonVal.s "bob"),
         ("content", JsonVal.s "hi"), ("timestamp", JsonVal.i 9)]⟩] ∧
    (SelectWinner true 9 1 ⟨false, 100, [],
        [(100, [⟨"alice", "yo", 2⟩, ⟨"bob", "hi", 3⟩])]⟩ 100).broadcasts =
      [[("version", JsonVal.s "1.0"), ("type", JsonVal.s "winner_announcement"),
        ("round_id", JsonVal.i 100), ("winner", JsonVal.msg ⟨"bob", "hi", 3⟩),
        ("total_messages", JsonVal.i 2)]] :=
  select_winner_publishes_chosen_submission 9 1
    ⟨false, 100, [], [(100, [⟨"alice", "yo", 2⟩, ⟨"bob", "hi", 3⟩])]⟩ 100
    [⟨"alice", "yo", 2⟩, ⟨"bob", "hi", 3⟩] rfl (by decide)

/-- C3: during an active round a second client_message from a username already
in the submission limiter is answered with exactly the already-sent error and
changes nothing; and over any sequence of handled envelopes, a username that
starts unmarked with an empty buffer ends with at most one recorded
submission for round R and at most one publication to messages of R. -/
theorem submission_limiter_at_most_once (natsUp : Bool) (now : Nat) :
    (∀ (s : HubState) (u : String) (e : Envelope),
      s.RoundActive = true → e.msgType = some "client_message" →
      u ∈ s.MessageLimiter →
      HandleClientMessage natsUp now s u e =
        ⟨s, some (SendErrorMessage "You have already submitted a message for this round"), []⟩) ∧
    (∀ (s : HubState) (evs : List (String × Envelope)) (R : Int) (U : String),
      U ∉ s.MessageLimiter → subsFrom s R U = 0 →
      subsFrom (runClientMessages natsUp now s evs).1 R U ≤ 1 ∧
        msgPubsFrom (runClientMessages natsUp now s evs).2 R U ≤ 1) := by
  refine ⟨fun s u e ha ht hm => handle_blocked_reply natsUp now s u e ha ht hm, ?_⟩
  intro s evs R U hU hz
  obtain ⟨a, -, c⟩ :=
    runClientMessages_at_most_once natsUp now R U evs s (fun _ => hz) (by omega)
  exact ⟨a, c⟩

/-- C3 witness: already-sent rejection and the at-most-once bound on a
concrete double submission. -/
theorem submission_limiter_at_most_once_witness :
    HandleClientMessage true 3 ⟨true, 9, ["alice"], []⟩ "alice"
        ⟨some "1.0", some "client_message", some "hi"⟩ =
      ⟨⟨true, 9, ["alice"], []⟩,
        some (SendErrorMessage "You have already submitted a message for this round"), []⟩ ∧
    (subsFrom (runClientMessages true 3 ⟨true, 9, [], []⟩
        [("alice", ⟨some "1.0", some "client_message", some "one"⟩),
         ("alice", ⟨some "1.0", some "client_message", some "two"⟩)]).1 9 "alice" ≤ 1 ∧
      msgPubsFrom (runClientMessages true 3 ⟨true, 9, [], []⟩
        [("alice", ⟨some "1.0", some "client_message", some "one"⟩),
         ("alice", ⟨some "1.0", some "client_message", some "two"⟩)]).2 9 "alice" ≤ 1) :=
  ⟨(submission_limiter_at_most_once true 3).1 ⟨true, 9, ["alice"], []⟩ "alice"
      ⟨some "1.0", some "client_message", some "hi"⟩ rfl rfl (by decide),
   (submission_limiter_at_most_once true 3).2 ⟨true, 9, [], []⟩
      [("alice", ⟨some "1.0", some "client_message", some "one"⟩),
       ("alice", ⟨some "1.0", some "client_message", some "two"⟩)] 9 "alice"
      (by decide) rfl⟩

/-- C7 counterexample: immediately after winner selection for round 100, the
round map still contains key 0 even though 0 is older than 100 - 2, because
cleanupOldMessages deletes nothing when at most three round keys exist. -/
theorem cleanup_skipped_with_few_rounds :
    (SelectWinner true 5 0 ⟨false, 100, [],
        [(0, [⟨"bob", "hi", 1⟩]), (100, [⟨"alice", "yo", 2⟩])]⟩ 100).state.RoundMessages.map
        Prod.fst = [0, 100] ∧
    ((0 : Int) < 100 - 2) := by
  decide

/-- C7 amended: after a winner is selected for round R from a non-empty
buffer, every buffered round id older than R - 2 has been removed provided
the map held more than three round entries; with three or fewer entries (and
on the empty-round path) nothing is deleted. -/
theorem cleanup_after_winner_selection (natsUp : Bool) (now randIndex : Nat)
    (s : HubState) (R : Int) (msgs : List RoundMessage)
    (hfind : mapLookup s.RoundMessages R = some msgs)
    (hidx : randIndex < msgs.length) :
    (s.RoundMessages.length > 3 →
      ∀ id ∈ (SelectWinner natsUp now randIndex s R).state.RoundMessages.map Prod.fst,
        ¬ id < R - 2) ∧
    (¬ s.RoundMessages.length > 3 →
      (SelectWinner natsUp now randIndex s R).state = s) := by
  have hne : ¬ msgs.length = 0 := by omega
  have hstate : (SelectWinner natsUp now randIndex s R).state = cleanupOldMessages s R := by
    unfold SelectWinner
    rw [hfind]
    simp only [if_neg hne]
  constructor
  · intro hlen
    rw [hstate]
    exact cleanupOldMessages_removes s R hlen
  · intro hlen
    rw [hstate]
    exact cleanupOldMessages_skips s R hlen

/-- C7 witness: with four buffered rounds the survivors are at least R - 2
(checked at id 99); with two buffered rounds the state is untouched. -/
theorem cleanup_after_winner_selection_witness :
    ¬ (99 : Int) < 100 - 2 ∧
    (SelectWinner true 5 0 ⟨false, 100, [],
        [(0, [⟨"bob", "hi", 1⟩]), (100, [⟨"alice", "yo", 2⟩])]⟩ 100).state =
      ⟨false, 100, [], [(0, [⟨"bob", "hi", 1⟩]), (100, [⟨"alice", "yo", 2⟩])]⟩ :=
  ⟨(cleanup_after_winner_selection true 5 0
      ⟨false, 100, [], [(0, [⟨"b", "x", 1⟩]), (50, [⟨"c", "y", 1⟩]), (99, [⟨"d", "z", 1⟩]),
        (100, [⟨"alice", "yo", 2⟩])]⟩ 100 [⟨"alice", "yo", 2⟩] rfl (by decide)).1
      (by decide) 99 (by decide),
   (cleanup_after_winner_selection true 5 0
      ⟨false, 100, [], [(0, [⟨"bob", "hi", 1⟩]), (100, [⟨"alice", "yo", 2⟩])]⟩ 100
      [⟨"alice", "yo", 2⟩] rfl (by decide)).2 (by decide)⟩

/-- C8: validateMessageContent accepts exactly the contents whose
whitespace-trimmed byte length lies in 1..500; trimmed lengths 0, 1, 500 and
501 give reject, accept, accept, reject; and during an active round a fresh
submission failing it is answered with the invalid-content error envelope. -/
theorem validate_message_content_boundaries :
    (∀ content, validateMessageContent content = true ↔
      1 ≤ goLen (goTrimSpace content) ∧ goLen (goTrimSpace content) ≤ 500) ∧
    goLen (goTrimSpace "  ") = 0 ∧ validateMessageContent "  " = false ∧
    goLen (goTrimSpace " a ") = 1 ∧ validateMessageContent " a " = true ∧
    goLen (goTrimSpace (String.mk (List.replicate 500 'a'))) = 500 ∧
      validateMessageContent (String.mk (List.replicate 500 'a')) = true ∧
    goLen (goTrimSpace (String.mk (List.replicate 501 'a'))) = 501 ∧
      validateMessageContent (String.mk (List.replicate 501 'a')) = false ∧
    (∀ (natsUp : Bool) (now : Nat) (s : HubState) (u : String) (e : Envelope) (d : String),
      s.RoundActive = true → u ∉ s.MessageLimiter →
      e.msgType = some "client_message" → e.data = some d → ¬ d = "" →
      validateMessageContent d = false →
      (HandleClientMessage natsUp now s u e).reply =
        some (SendErrorMessage "Invalid message content: must be 1-500 characters")) := by
  refine ⟨?_, by decide, by decide, by decide, by decide, by decide, by decide,
    by decide, by decide, ?_⟩
  · intro content
    unfold validateMessageContent
    simp [Bool.and_eq_true]
  · intro natsUp now s u e d ha hm ht hd hne hv
    unfold HandleClientMessage
    rw [ht, hd]
    simp [ha, hm, hne, hv]

/-- C8 witness: a 501-character submission from a fresh sender in an active
round draws the invalid-content error. -/
theorem validate_message_content_boundaries_witness :
    (HandleClientMessage true 0 ⟨true, 5, [], []⟩ "alice"
        ⟨some "1.0", some "client_message",
          some (String.mk (List.replicate 501 'a'))⟩).reply =
      some (SendErrorMessage "Invalid message content: must be 1-500 characters") :=
  validate_message_content_boundaries.2.2.2.2.2.2.2.2.2 true 0 ⟨true, 5, [], []⟩ "alice"
    ⟨some "1.0", some "client_message", some (String.mk (List.replicate 501 'a'))⟩
    (String.mk (List.replicate 501 'a')) rfl (by decide) rfl rfl (by decide) (by decide)

/-- C9 counterexample: with the stream available and a round id present in
the path, a failure of the message-consumer pipeline makes the handler answer
HTTP 500, not the JSON round object, so the claimed two-error-case dichotomy
fails as stated. -/
theorem api_rounds_consumer_failure :
    goLen "/api/rounds/" < goLen "/api/rounds/123" ∧
    apiRoundsHandler true "/api/rounds/123" false [] true [] =
      HttpResponse.httpError 500 "Error retrieving messages" := by
  decide

/-- C9 amended: the round-history handler answers 503 whenever the stream
backend is unavailable; 400 whenever the id is missing (stream available);
500 when the id is present but the message fetch pipeline fails; and
otherwise a JSON object whose count equals the number of fetched messages
that decode (at most 100) and whose winner is the fetched winner record or
null (null on any winner-side failure). -/
theorem api_rounds_handler_responses :
    (∀ (path : String) (cOk : Bool) (sm : List (Option JsonObj)) (wOk : Bool)
        (ws : List (Option JsonObj)),
      apiRoundsHandler false path cOk sm wOk ws =
        HttpResponse.httpError 503 "JetStream not available") ∧
    (∀ (path : String) (cOk : Bool) (sm : List (Option JsonObj)) (wOk : Bool)
        (ws : List (Option JsonObj)), goLen path ≤ goLen "/api/rounds/" →
      apiRoundsHandler true path cOk sm wOk ws =
        HttpResponse.httpError 400 "Round ID required") ∧
    (∀ (path : String) (sm : List (Option JsonObj)) (wOk : Bool)
        (ws : List (Option JsonObj)), goLen "/api/rounds/" < goLen path →
      apiRoundsHandler true path false sm wOk ws =
        HttpResponse.httpError 500 "Error retrieving messages") ∧
    (∀ (path : String) (sm : List (Option JsonObj)) (wOk : Bool)
        (ws : List (Option JsonObj)), goLen "/api/rounds/" < goLen path →
      ∃ ms w,
        apiRoundsHandler true path true sm wOk ws =
          HttpResponse.jsonOk (String.mk (path.data.drop "/api/rounds/".data.length))
            ms w ms.length ∧
        ms = (sm.take 100).filterMap id ∧ ms.length ≤ 100 ∧
        (∀ rec, w = some rec ↔ wOk = true ∧ ws.head? = some (some rec))) := by
  refine ⟨fun path cOk sm wOk ws => rfl, ?_, ?_, ?_⟩
  · intro path cOk sm wOk ws h
    unfold apiRoundsHandler
    simp [h]
  · intro path sm wOk ws h
    unfold apiRoundsHandler
    simp [Nat.not_le.mpr h]
  · intro path sm wOk ws h
    refine ⟨(sm.take 100).filterMap id,
      (if wOk then
        match (ws.take 1).filterMap id with
        | [] => none
        | w :: _ => some w
      else none), ?_, rfl, ?_, ?_⟩
    · unfold apiRoundsHandler
      simp [Nat.not_le.mpr h]
    · exact le_trans (List.length_filterMap_le _ _) (List.length_take_le _ _)
    · intro rec
      cases wOk with
      | false => simp
      | true =>
        cases ws with
        | nil => simp
        | cons h0 t =>
          cases h0 with
          | none => simp
          | some r0 => simp [eq_comm]

/-- C9 witness: the three statuses and the JSON success shape on concrete
requests. -/
theorem api_rounds_handler_responses_witness :
    apiRoundsHandler false "/api/rounds/7" true [] true [] =
      HttpResponse.httpError 503 "JetStream not available" ∧
    apiRoundsHandler true "/api/rounds/" true [] true [] =
      HttpResponse.httpError 400 "Round ID required" ∧
    apiRoundsHandler true "/api/rounds/123" false [] true [] =
      HttpResponse.httpError 500 "Error retrieving messages" ∧
    apiRoundsHandler true "/api/rounds/123" true
        [some [("username", JsonVal.s "a")], none] true [] =
      HttpResponse.jsonOk "123" [[("username", JsonVal.s "a")]] none 1 := by
  have h4 := api_rounds_handler_responses.2.2.2 "/api/rounds/123"
    [some [("username", JsonVal.s "a")], none] true [] (by decide)
  obtain ⟨ms, w, heq, hms, -, hiff⟩ := h4
  have hw : w = none := by
    cases w with
    | none => rfl
    | some r =>
      have hc := (hiff r).mp rfl
      simp at hc
  refine ⟨api_rounds_handler_responses.1 "/api/rounds/7" true [] true [],
    api_rounds_handler_responses.2.1 "/api/rounds/" true [] true [] (by decide),
    api_rounds_handler_responses.2.2.1 "/api/rounds/123" [] true [] (by decide), ?_⟩
  rw [heq, hms, hw]
  rfl

/-- C10: with an active round and an unmarked sender, a client_message whose
data is missing, empty, or fails content validation is rejected with an error
while still marking the sender in the limiter and leaving the buffers and
publications untouched; afterwards any well-formed client_message from the
same sender draws the already-sent error, and no submission from that sender
is ever recorded or published for the round. -/
theorem limiter_marked_before_validation (natsUp : Bool) (now : Nat)
    (s : HubState) (u : String) (e : Envelope)
    (hactive : s.RoundActive = true) (hfree : u ∉ s.MessageLimiter)
    (htype : e.msgType = some "client_message")
    (hbad : e.data = none ∨ e.data = some "" ∨
      ∃ d, e.data = some d ∧ validateMessageContent d = false) :
    (HandleClientMessage natsUp now s u e).state =
      { s with MessageLimiter := u :: s.MessageLimiter } ∧
    (HandleClientMessage natsUp now s u e).published = [] ∧
    ((HandleClientMessage natsUp now s u e).reply =
        some (SendErrorMessage "Invalid message data") ∨
      (HandleClientMessage natsUp now s u e).reply =
        some (SendErrorMessage "Invalid message content: must be 1-500 characters")) ∧
    (∀ e2, e2.msgType = some "client_message" →
      HandleClientMessage natsUp now (HandleClientMessage natsUp now s u e).state u e2 =
        ⟨(HandleClientMessage natsUp now s u e).state,
          some (SendErrorMessage "You have already submitted a message for this round"), []⟩) ∧
    (∀ (evs : List (String × Envelope)) (R : Int), subsFrom s R u = 0 →
      subsFrom (runClientMessages natsUp now
        (HandleClientMessage natsUp now s u e).state evs).1 R u = 0 ∧
      msgPubsFrom (runClientMessages natsUp now
        (HandleClientMessage natsUp now s u e).state evs).2 R u = 0) := by
  have hres : (HandleClientMessage natsUp now s u e).state =
        { s with MessageLimiter := u :: s.MessageLimiter } ∧
      (HandleClientMessage natsUp now s u e).published = [] ∧
      ((HandleClientMessage natsUp now s u e).reply =
          some (SendErrorMessage "Invalid message data") ∨
        (HandleClientMessage natsUp now s u e).reply =
          some (SendErrorMessage "Invalid message content: must be 1-500 characters")) := by
    unfold HandleClientMessage
    rw [htype]
    rcases hbad with hd | hd | ⟨d, hd, hv⟩
    · rw [hd]
      simp [hactive, hfree]
    · rw [hd]
      simp [hactive, hfree]
    · rw [hd]
      by_cases hd0 : d = ""
      · simp [hactive, hfree, hd0]
      · simp [hactive, hfree, hd0, hv]
  obtain ⟨hstate, hpub, hreply⟩ := hres
  refine ⟨hstate, hpub, hreply, ?_, ?_⟩
  · intro e2 htype2
    apply handle_blocked_reply
    · rw [hstate]
      exact hactive
    · exact htype2
    · rw [hstate]
      exact List.mem_cons_self _ _
  · intro evs R hz
    have hmem : u ∈ (HandleClientMessage natsUp now s u e).state.MessageLimiter := by
      rw [hstate]
      exact List.mem_cons_self _ _
    have hz2 : subsFrom (HandleClientMessage natsUp now s u e).state R u = 0 := by
      rw [hstate]
      exact hz
    obtain ⟨-, b, c⟩ :=
      runClientMessages_never_records natsUp now R u evs
        (HandleClientMessage natsUp now s u e).state hmem hz2
    exact ⟨b, c⟩

/-- C10 witness: an empty-data first submission marks alice, is rejected,
and a later valid submission from alice is refused with already-sent; no
alice submission is ever recorded. -/
theorem limiter_marked_before_validation_witness :
    (HandleClientMessage true 3 ⟨true, 9, [], []⟩ "alice"
        ⟨some "1.0", some "client_message", some ""⟩).state = ⟨true, 9, ["alice"], []⟩ ∧
    (HandleClientMessage true 3 ⟨true, 9, [], []⟩ "alice"
        ⟨some "1.0", some "client_message", some ""⟩).published = [] ∧
    HandleClientMessage true 3 ⟨true, 9, ["alice"], []⟩ "alice"
        ⟨some "1.0", some "client_message", some "hello"⟩ =
      ⟨⟨true, 9, ["alice"], []⟩,
        some (SendErrorMessage "You have already submitted a message for this round"), []⟩ ∧
    subsFrom (runClientMessages true 3 ⟨true, 9, ["alice"], []⟩
        [("alice", ⟨some "1.0", some "client_message", some "ok"⟩)]).1 9 "alice" = 0 := by
  have h := limiter_marked_before_validation true 3 ⟨true, 9, [], []⟩ "alice"
    ⟨some "1.0", some "client_message", some ""⟩ rfl (by decide) rfl (Or.inr (Or.inl rfl))
  exact ⟨h.1, h.2.1,
    h.2.2.2.1 ⟨some "1.0", some "client_message", some "hello"⟩ rfl,
    (h.2.2.2.2 [("alice", ⟨some "1.0", some "client_message", some "ok"⟩)] 9 rfl).1⟩
